import Mathlib

/-!
Shallow embedding of the real-time telemetry core of the vineyard-monitoring
backend (`back/app`): the threshold/alert engine (`app/services/sensor.py`),
the sensor value generator (`app/services/sensor_simulator.py`), the WebSocket
connection manager (`app/websockets/connection_manager.py`) and the WebSocket
message dispatcher (`app/websockets/routes.py`).

Python floats are modelled as rationals (`ℚ`); the database tables are
modelled as in-memory lists of records with an id counter and a logical
clock standing for the auto-generated timestamps (each write advances the
clock, so list order `newest first` agrees with `ORDER BY -timestamp`).
-/

namespace Vineyard

/-- `AlertType` enum from `app/models/sensor_data.py`. -/
inductive AlertType where
  | high
  | low
  | normal
  | system
deriving DecidableEq, Repr

/-- A row of the `sensor_alerts` table (`SensorAlert` model).
`timestamp` is a logical clock value; `resolved_at` is `null` until the alert
is resolved. -/
structure SensorAlert where
  id : Nat
  sensor_id : String
  alert_type : AlertType
  value : ℚ
  threshold_value : ℚ
  unit : String
  is_active : Bool
  timestamp : Nat
  resolved_at : Option Nat
deriving DecidableEq, Repr

/-- A row of the `sensor_alert_thresholds` table (`SensorAlertThreshold`
model). -/
structure SensorAlertThreshold where
  id : Nat
  sensor_type : String
  min_value : ℚ
  max_value : ℚ
  unit : String
  is_active : Bool
  created_at : Nat
deriving DecidableEq, Repr

/-- The `sensor_alerts` table: alerts listed newest-first (descending
`timestamp`, which is how the model's default ordering and every
`order_by("-timestamp")` query sees them), plus the id counter and the
logical clock. -/
structure AlertStore where
  alerts : List SensorAlert
  nextId : Nat
  clock : Nat
deriving DecidableEq, Repr

/-- The empty `sensor_alerts` table. -/
def AlertStore.empty : AlertStore := ⟨[], 0, 0⟩

/-- `SensorAlert.filter(sensor_id=sid, is_active=True).order_by("-timestamp").first()`
from `check_sensor_value_against_threshold` (sensor.py lines 567-571):
the newest active alert of the sensor, if any. -/
def lastActiveAlert (db : AlertStore) (sid : String) : Option SensorAlert :=
  db.alerts.find? (fun a => a.sensor_id == sid && a.is_active)

/-- All currently active alerts of one sensor (used to state the
"at most one active alert per sensor" property). -/
def activeAlertsFor (db : AlertStore) (sid : String) : List SensorAlert :=
  db.alerts.filter (fun a => a.sensor_id == sid && a.is_active)

/-- `create_sensor_alert` (sensor.py lines 467-478): inserts a new
`SensorAlert` row.  The new row gets the next id and the current clock as
its timestamp and is prepended (newest first). -/
def create_sensor_alert (db : AlertStore) (sid : String) (ty : AlertType)
    (value threshold_value : ℚ) (unit : String) (is_active : Bool) :
    SensorAlert × AlertStore :=
  let a : SensorAlert :=
    { id := db.nextId, sensor_id := sid, alert_type := ty, value := value,
      threshold_value := threshold_value, unit := unit, is_active := is_active,
      timestamp := db.clock, resolved_at := none }
  (a, { alerts := a :: db.alerts, nextId := db.nextId + 1, clock := db.clock + 1 })

/-- `resolve_alert` (sensor.py lines 518-536): looks the alert up by id,
sets `is_active = False` and `resolved_at = datetime.utcnow()`, and saves it;
returns `None` when the id does not exist. -/
def resolve_alert (db : AlertStore) (alertId : Nat) :
    Option SensorAlert × AlertStore :=
  match db.alerts.find? (fun a => a.id == alertId) with
  | none => (none, db)
  | some a =>
    let a' := { a with is_active := false, resolved_at := some db.clock }
    (some a',
     { db with
        alerts := db.alerts.map (fun b => if b.id == alertId then a' else b),
        clock := db.clock + 1 })

/-- `check_sensor_value_against_threshold` (sensor.py lines 539-646).
Looks up the newest active alert of the sensor, then:
* `value > threshold.max_value`: create an active `high` alert unless the
  last active alert is already `high`;
* `value < threshold.min_value`: create an active `low` alert unless the
  last active alert is already `low`;
* otherwise, if there is an active `high` or `low` alert: resolve it and
  create a `normal` alert that is born inactive;
* otherwise no alert.
Returns the created alert (if any) and the updated table. -/
def check_sensor_value_against_threshold (db : AlertStore) (sid : String)
    (value : ℚ) (threshold : SensorAlertThreshold) (unit : String) :
    Option SensorAlert × AlertStore :=
  let last_alert := lastActiveAlert db sid
  if value > threshold.max_value then
    match last_alert with
    | none =>
      let (a, db') := create_sensor_alert db sid .high value threshold.max_value unit true
      (some a, db')
    | some la =>
      if la.alert_type ≠ AlertType.high then
        let (a, db') := create_sensor_alert db sid .high value threshold.max_value unit true
        (some a, db')
      else (none, db)
  else if value < threshold.min_value then
    match last_alert with
    | none =>
      let (a, db') := create_sensor_alert db sid .low value threshold.min_value unit true
      (some a, db')
    | some la =>
      if la.alert_type ≠ AlertType.low then
        let (a, db') := create_sensor_alert db sid .low value threshold.min_value unit true
        (some a, db')
      else (none, db)
  else
    match last_alert with
    | some la =>
      if la.is_active && (la.alert_type == AlertType.high || la.alert_type == AlertType.low) then
        let (_, db1) := resolve_alert db la.id
        let tv := if la.alert_type == AlertType.low then threshold.min_value else threshold.max_value
        let (a, db2) := create_sensor_alert db1 sid .normal value tv unit false
        (some a, db2)
      else (none, db)
    | none => (none, db)

/-! ### Sensor simulator (`app/services/sensor_simulator.py`)

`last_sensor_values` is the global nested dict
`{user_id: {sensor_id: {type_str: last_value}}}`, modelled as nested
association lists that preserve Python's dict insertion order.  Writing
`d[a][b][c] = v` in Python requires `d[a]` and `d[a][b]` to exist (else
`KeyError`), which the model reflects by returning `none`. -/

/-- Python dict item assignment on an association list: overwrites the value
in place if the key exists, otherwise appends the pair at the end. -/
def setA {α β : Type} [BEq α] (k : α) (v : β) : List (α × β) → List (α × β)
  | [] => [(k, v)]
  | (k', v') :: rest =>
    if k' == k then (k, v) :: rest else (k', v') :: setA k v rest

/-- `SensorType` enum from `app/models/sensor_data.py` (10 members, in
declaration order). -/
inductive SensorType where
  | temperature
  | humidity
  | soil_moisture
  | soil_temperature
  | light
  | ph
  | wind_speed
  | wind_direction
  | rainfall
  | co2
deriving DecidableEq, Repr

/-- The `.value` string of each `SensorType` member. -/
def SensorType.value : SensorType → String
  | .temperature => "temperature"
  | .humidity => "humidity"
  | .soil_moisture => "soil_moisture"
  | .soil_temperature => "soil_temperature"
  | .light => "light"
  | .ph => "ph"
  | .wind_speed => "wind_speed"
  | .wind_direction => "wind_direction"
  | .rainfall => "rainfall"
  | .co2 => "co2"

/-- One entry of the `SENSOR_RANGES` table. -/
structure SensorRange where
  min : ℚ
  max : ℚ
  unit : String
  max_change : ℚ
deriving DecidableEq, Repr

/-- `SENSOR_RANGES` (sensor_simulator.py lines 26-57), floats as exact
rationals. -/
def SENSOR_RANGES : SensorType → SensorRange
  | .temperature => ⟨15, 35, "°C", 1/2⟩
  | .humidity => ⟨40, 95, "%", 2⟩
  | .soil_moisture => ⟨20, 80, "%", 3/2⟩
  | .soil_temperature => ⟨12, 30, "°C", 3/10⟩
  | .light => ⟨0, 100000, "lux", 5000⟩
  | .ph => ⟨11/2, 8, "pH", 1/10⟩
  | .wind_speed => ⟨0, 20, "m/s", 2⟩
  | .wind_direction => ⟨0, 359, "degrees", 20⟩
  | .rainfall => ⟨0, 50, "mm", 5⟩
  | .co2 => ⟨300, 1500, "ppm", 50⟩

/-- Which sensor types have an entry in `HOUR_PATTERNS`
(sensor_simulator.py lines 60-68): temperature, humidity and light. -/
def hasHourPattern : SensorType → Bool
  | .temperature => true
  | .humidity => true
  | .light => true
  | _ => false

/-- `{type_str: last_value}`. -/
abbrev TypeValues := List (String × ℚ)

/-- `{sensor_id: {type_str: last_value}}`. -/
abbrev UserSensorValues := List (String × TypeValues)

/-- The global `last_sensor_values` store. -/
abbrev LastSensorValues := List (Nat × UserSensorValues)

/-- `generate_sensor_value` (sensor_simulator.py lines 180-231).
The two non-deterministic/transcendental inputs are passed as oracles:
`rand` is the value drawn by `random.uniform(-max_change, max_change)` and
`pattern` is `HOUR_PATTERNS[sensor_type](current_hour)` (a `math.sin`-based
float), used only when the type has an hour pattern.  The previous value is
read with a `try/except` fallback to the range midpoint; the final store
write `last_sensor_values[user_id][sensor_id][type] = new_value` raises
`KeyError` (modelled as `none`) when the user or sensor entry is missing. -/
def generate_sensor_value (st : LastSensorValues) (user_id : Nat)
    (sensor_id : String) (sensor_type : SensorType) (rand pattern : ℚ) :
    Option (ℚ × LastSensorValues) :=
  let ranges := SENSOR_RANGES sensor_type
  let prev_value :=
    match (st.lookup user_id).bind (fun us =>
        (us.lookup sensor_id).bind (fun tv => tv.lookup sensor_type.value)) with
    | some v => v
    | none => (ranges.min + ranges.max) / 2
  let change := rand + (if hasHourPattern sensor_type then pattern * (5 / 100) else 0)
  let new_value := max ranges.min (min ranges.max (prev_value + change))
  match st.lookup user_id with
  | none => none
  | some us =>
    match us.lookup sensor_id with
    | none => none
    | some tv =>
      some (new_value,
        setA user_id (setA sensor_id (setA sensor_type.value new_value tv) us) st)

/-! ### `get_or_create_user_sensors` (sensor_simulator.py lines 71-177) -/

/-- The members of `SensorType` in iteration order. -/
def sensorTypesList : List SensorType :=
  [.temperature, .humidity, .soil_moisture, .soil_temperature, .light,
   .ph, .wind_speed, .wind_direction, .rainfall, .co2]

/-- `for st in SensorType: if st.value == sensor_type_str` — the first
enum member whose `.value` equals the string, if any. -/
def parseSensorType (s : String) : Option SensorType :=
  sensorTypesList.find? (fun ty => ty.value == s)

/-- One value of the `user_sensors` dict returned by
`get_or_create_user_sensors`. -/
structure SensorInfo where
  type : String
  location_id : String
  value : ℚ
  unit : String
deriving DecidableEq, Repr

/-- `location_num = int(parts[-1]) % 3 + 1 if len(parts) >= 3 else 1` and
`location_id = f"location_{user_id}_{location_num}"`; `int(...)` on a
non-numeric last part raises `ValueError`, modelled as `none`. -/
def locationFor (user_id : Nat) (sensor_id : String) : Option String :=
  let parts := sensor_id.splitOn "_"
  if parts.length ≥ 3 then
    match (parts.getLastD "").toNat? with
    | none => none
    | some n =>
      some ("location_" ++ toString user_id ++ "_" ++ toString (n % 3 + 1))
  else
    some ("location_" ++ toString user_id ++ "_1")

/-- The rebuild loop of `get_or_create_user_sensors` (lines 97-124): for
each stored sensor, take the first key of its value dict as the type
string, skip the sensor when the dict is empty or the type string is not a
`SensorType` member, and otherwise emit a `user_sensors` entry. -/
def rebuildUserSensors (user_id : Nat) :
    UserSensorValues → Option (List (String × SensorInfo))
  | [] => some []
  | (sensor_id, sensor_values) :: rest =>
    match sensor_values.head? with
    | none => rebuildUserSensors user_id rest
    | some (tyStr, value) =>
      match parseSensorType tyStr with
      | none => rebuildUserSensors user_id rest
      | some ty =>
        match locationFor user_id sensor_id with
        | none => none
        | some loc =>
          (rebuildUserSensors user_id rest).map
            (fun tail =>
              (sensor_id, ⟨tyStr, loc, value, (SENSOR_RANGES ty).unit⟩) :: tail)

/-- The creation of one sensor inside the inner `for i in range(1,
current_type_count + 1)` loop (lines 156-176).  `rand ty i` is the value
drawn by `random.uniform(ranges["min"], ranges["max"])`.  The accumulator is
`(user_sensors, stored values of this user, sensors_created)`. -/
def addOneSensor (user_id : Nat) (ty : SensorType)
    (rand : SensorType → Nat → ℚ) (acc : List (String × SensorInfo) × UserSensorValues × Nat)
    (i : Nat) : List (String × SensorInfo) × UserSensorValues × Nat :=
  let (user_sensors, stored, created) := acc
  let sensor_id := toString user_id ++ "_" ++ ty.value ++ "_" ++ toString i
  let location_id := "location_" ++ toString user_id ++ "_" ++ toString (i % 3 + 1)
  let initial_value := rand ty i
  let stored1 :=
    if (stored.lookup sensor_id).isNone then setA sensor_id [] stored else stored
  let stored2 :=
    match stored1.lookup sensor_id with
    | some tv => setA sensor_id (setA ty.value initial_value tv) stored1
    | none => stored1
  let user_sensors1 :=
    if (user_sensors.lookup sensor_id).isSome then user_sensors
    else user_sensors ++
      [(sensor_id,
        ⟨ty.value, location_id, initial_value, (SENSOR_RANGES ty).unit⟩)]
  (user_sensors1, stored2, created + 1)

/-- One iteration of the outer `for sensor_type in SensorType` creation
loop (lines 143-176); the accumulator also carries `remainder` (an `Int`,
since `total_sensors - sensors_per_type * len(SensorType)` can be
negative).  The `break` when `sensors_created >= total_sensors` is modelled
by leaving the accumulator untouched. -/
def createTypeStep (user_id total_sensors sensors_per_type : Nat)
    (rand : SensorType → Nat → ℚ)
    (acc : (List (String × SensorInfo) × UserSensorValues × Nat) × Int)
    (ty : SensorType) :
    (List (String × SensorInfo) × UserSensorValues × Nat) × Int :=
  let ((user_sensors, stored, created), remainder) := acc
  if created ≥ total_sensors then acc
  else
    let current0 := sensors_per_type + (if remainder > 0 then 1 else 0)
    let remainder1 := if remainder > 0 then remainder - 1 else remainder
    let current := Nat.min current0 (total_sensors - created)
    ((List.range' 1 current).foldl (addOneSensor user_id ty rand)
        (user_sensors, stored, created),
     remainder1)

/-- The creation branch of `get_or_create_user_sensors` (lines 133-177):
distributes `total_sensors` sensors over the ten types. -/
def createUserSensors (user_id total_sensors count_per_type : Nat)
    (rand : SensorType → Nat → ℚ) :
    List (String × SensorInfo) × UserSensorValues :=
  let sensors_per_type :=
    Nat.max 1 (Nat.min count_per_type (total_sensors / sensorTypesList.length))
  let remainder : Int :=
    (total_sensors : Int) - (sensors_per_type : Int) * (sensorTypesList.length : Int)
  let r := sensorTypesList.foldl
    (createTypeStep user_id total_sensors sensors_per_type rand)
    (([], [], 0), remainder)
  (r.1.1, r.1.2.1)

/-- `get_or_create_user_sensors` (lines 71-177), with an explicit fuel
bound on the self-recursion (line 129): `none` means the Python call does
not return — either fuel ran out on the recursion, or `int()` raised in the
rebuild loop.  When the user already has an entry, its sensors are rebuilt
and, on a count mismatch, the entry is reset to `{}` and the function
recurses; note that the reset keeps the user's key present, so the
recursive call re-enters the rebuild branch.  `total_sensors` is
`user.sensor_count`. -/
def get_or_create_user_sensors (fuel : Nat) (st : LastSensorValues)
    (user_id total_sensors count_per_type : Nat)
    (rand : SensorType → Nat → ℚ) :
    Option (List (String × SensorInfo) × LastSensorValues) :=
  match fuel with
  | 0 => none
  | fuel + 1 =>
    match st.lookup user_id with
    | some stored =>
      match rebuildUserSensors user_id stored with
      | none => none
      | some user_sensors =>
        if user_sensors.length ≠ total_sensors then
          get_or_create_user_sensors fuel (setA user_id [] st) user_id
            total_sensors count_per_type rand
        else some (user_sensors, st)
    | none =>
      let r := createUserSensors user_id total_sensors count_per_type rand
      some (r.1, setA user_id r.2 st)

/-! ### Connection manager (`app/websockets/connection_manager.py`)

A `WebSocket` object is modelled as an opaque connection id.  Send failure
is modelled by an oracle `fails : Conn → Bool` saying which connections'
`send_text` raises.  A broadcast returns the list of `(connection,
serialized text)` deliveries that succeeded, together with the updated
manager state. -/

/-- A WebSocket connection, identified opaquely. -/
abbrev Conn := Nat

/-- The `ConnectionManager` state: `active_connections` (the catch-all
send set), `group_connections` (group name → members) and
`user_connections` (user id → that owner's connections).  The two dicts are
insertion-ordered association lists, as in Python. -/
structure ConnectionManager where
  active_connections : List Conn
  group_connections : List (String × List Conn)
  user_connections : List (Nat × List Conn)
deriving DecidableEq, Repr

/-- The freshly constructed manager. -/
def ConnectionManager.empty : ConnectionManager := ⟨[], [], []⟩

/-- `add_to_group` (connection_manager.py lines 93-109): ensure the group
entry exists, then append the connection if it is not already a member. -/
def add_to_group (m : ConnectionManager) (ws : Conn) (g : String) :
    ConnectionManager :=
  let cur := (m.group_connections.lookup g).getD []
  let cur1 := if cur.contains ws then cur else cur ++ [ws]
  { m with group_connections := setA g cur1 m.group_connections }

/-- `ConnectionManager.connect` (lines 28-62), minus the transport accept:
append to `active_connections`; if a truthy `user_id` is given, append to
that user's connection list; then join each requested group. -/
def connect (m : ConnectionManager) (ws : Conn) (user_id : Option Nat)
    (groups : List String) : ConnectionManager :=
  let m1 := { m with active_connections := m.active_connections ++ [ws] }
  let m2 :=
    match user_id with
    | some uid =>
      if uid ≠ 0 then
        let cur := (m1.user_connections.lookup uid).getD []
        { m1 with user_connections := setA uid (cur ++ [ws]) m1.user_connections }
      else m1
    | none => m1
  groups.foldl (fun acc g => add_to_group acc ws g) m2

/-- `remove_from_group` (lines 111-129): remove the member and delete the
group entry when it becomes empty. -/
def remove_from_group (m : ConnectionManager) (ws : Conn) (g : String) :
    ConnectionManager :=
  match m.group_connections.lookup g with
  | some conns =>
    if conns.contains ws then
      let conns1 := conns.erase ws
      if conns1.isEmpty then
        { m with group_connections := m.group_connections.filter (fun p => p.1 != g) }
      else
        { m with group_connections := setA g conns1 m.group_connections }
    else m
  | none => m

/-- The per-index sweep of `disconnect`: in every entry that contains the
connection, remove it, and drop the entry entirely when its list becomes
empty. -/
def removeConnEntries {α : Type} (ws : Conn) (l : List (α × List Conn)) :
    List (α × List Conn) :=
  l.filterMap (fun p =>
    if p.2.contains ws then
      if (p.2.erase ws).isEmpty then none else some (p.1, p.2.erase ws)
    else some p)

/-- `disconnect` (lines 64-91): remove the connection from
`active_connections`, from every user's connection list and from every
group (dropping entries that become empty). -/
def disconnect (m : ConnectionManager) (ws : Conn) : ConnectionManager :=
  { active_connections :=
      if m.active_connections.contains ws then m.active_connections.erase ws
      else m.active_connections,
    group_connections := removeConnEntries ws m.group_connections,
    user_connections := removeConnEntries ws m.user_connections }

/-- A `WebSocketMessage` envelope; the payload stands for the `data` and
`timestamp` fields, which the manager never inspects. -/
structure WebSocketMessage where
  type : String
  payload : String
deriving DecidableEq, Repr

/-- `message.model_dump_json()`: the serialized wire form, computed once
per broadcast call. -/
def serialize (msg : WebSocketMessage) : String := msg.type ++ "|" ++ msg.payload

/-- `send_personal_message` (lines 131-146): try to send; on failure,
disconnect the connection. -/
def send_personal_message (m : ConnectionManager) (fails : Conn → Bool)
    (msg : WebSocketMessage) (ws : Conn) :
    List (Conn × String) × ConnectionManager :=
  if fails ws then ([], disconnect m ws)
  else ([(ws, serialize msg)], m)

/-- `broadcast_to_group` (lines 191-264): an unknown group name gets an
empty entry created and nothing is sent; otherwise the message is
serialized once and sent to every member over a copy of the list, failing
members are collected, and each failing member is disconnected after the
fan-out. -/
def broadcast_to_group (m : ConnectionManager) (fails : Conn → Bool)
    (msg : WebSocketMessage) (g : String) :
    List (Conn × String) × ConnectionManager :=
  match m.group_connections.lookup g with
  | none => ([], { m with group_connections := setA g [] m.group_connections })
  | some conns =>
    if conns.isEmpty then ([], m)
    else
      let message_json := serialize msg
      let delivered := (conns.filter (fun c => !(fails c))).map
        (fun c => (c, message_json))
      let disconnected := conns.filter (fun c => fails c)
      (delivered, disconnected.foldl disconnect m)

/-- One step of the direct-send loop
`for connection in user_connections: await manager.send_personal_message(...)`:
accumulate the deliveries and thread the manager state. -/
def sendEachStep (fails : Conn → Bool) (msg : WebSocketMessage)
    (acc : List (Conn × String) × ConnectionManager) (c : Conn) :
    List (Conn × String) × ConnectionManager :=
  (acc.1 ++ (send_personal_message acc.2 fails msg c).1,
   (send_personal_message acc.2 fails msg c).2)

/-- The owner-scoped delivery path of `broadcast_sensor_data`
(sensor.py lines 362-379, identical in `broadcast_sensor_alert` lines
442-454): broadcast to the `user:{owner}` group, then send directly to each
of the owner's connections (read from the state after the group broadcast).
The Python loop iterates the live `user_connections` list; the model
iterates the snapshot read before the loop, which coincides with the code
when no direct send fails and otherwise over-approximates the deliveries
(sound for isolation properties). -/
def broadcast_sensor_data_owner (m : ConnectionManager) (fails : Conn → Bool)
    (msg : WebSocketMessage) (owner : Nat) :
    List (Conn × String) × ConnectionManager :=
  let r1 := broadcast_to_group m fails msg ("user:" ++ toString owner)
  let r2 := ((r1.2.user_connections.lookup owner).getD []).foldl
    (sendEachStep fails msg) ([], r1.2)
  (r1.1 ++ r2.1, r2.2)

/-- The connect phase of `websocket_endpoint` (routes.py lines 88-106):
client-supplied query groups, plus the always-added `sensor:all` group,
plus the `user:{user_id}` group when a user id is known — then
`manager.connect`.  Note the query groups are taken as-is, with no check
that the client may join them. -/
def websocket_connect (m : ConnectionManager) (ws : Conn)
    (user_id : Option Nat) (query_groups : List String) : ConnectionManager :=
  let groups1 :=
    if query_groups.contains "sensor:all" then query_groups
    else query_groups ++ ["sensor:all"]
  let groups2 :=
    match user_id with
    | some uid =>
      let user_group := "user:" ++ toString uid
      if groups1.contains user_group then groups1 else groups1 ++ [user_group]
    | none => groups1
  connect m ws user_id groups2

/-- The `subscribe` command of `websocket_endpoint` (routes.py lines
206-221): joins every requested group, with no ownership check. -/
def ws_subscribe (m : ConnectionManager) (ws : Conn) (groups : List String) :
    ConnectionManager :=
  groups.foldl (fun acc g => add_to_group acc ws g) m

/-- Well-formedness of the registry: no index holds a connection twice.
`connect` appends unconditionally only for a websocket object that is not
yet registered, so states reached by distinct connects satisfy this. -/
def Wf (m : ConnectionManager) : Prop :=
  m.active_connections.Nodup ∧
  (∀ p ∈ m.group_connections, p.2.Nodup) ∧
  (∀ p ∈ m.user_connections, p.2.Nodup)

/-! ### WebSocket message dispatcher (`app/websockets/routes.py`)

One iteration of the `while True: data = await websocket.receive_json()`
loop of `websocket_endpoint` (routes.py lines 186-775), restricted to the
replies it attempts to send on the connection.  Branches that query or
mutate the database sit inside `try/except` blocks whose reply behaviour
depends only on whether the enclosed operations raise; those outcomes are
supplied by a `WsEffects` oracle.  The group joins/leaves performed by
`subscribe`/`unsubscribe` act on the connection manager and are modelled
separately by `ws_subscribe`/`remove_from_group`. -/

/-- The fields of the inbound envelope's `data` object that the dispatcher
reads: `groups` (when present and a list), `target`, `manual` and
`alert_id`. -/
structure InboundData where
  groups : Option (List String)
  target : Option String
  manual : Option Bool
  alert_id : Option Nat
deriving DecidableEq, Repr

/-- Outcomes of the database operations hidden inside the `try/except`
blocks: whether each operation raises, how many alerts `get_alerts`
returns, and whether `resolve_alert` finds the alert. -/
structure WsEffects where
  gen_ok : Bool
  test_ok : Bool
  get_thresholds_ok : Bool
  save_ok : Bool
  reset_ok : Bool
  alerts_ok : Bool
  alerts_count : Nat
  resolve_ok : Bool
  resolve_found : Bool
deriving DecidableEq, Repr

/-- The reply types one loop iteration attempts to send for one inbound
envelope, paired with `true` because every dispatch branch falls through to
the next `receive_json` (the loop never closes the connection itself).
Mirrors the `if/elif` chain of routes.py lines 198-775: note that only the
literal type `"echo"` is echoed, that a `request_data` with an
unrecognized or missing `target` hits the final `else: pass`, and that an
envelope whose type matches no branch is dropped without any reply. -/
def handle_ws_message (user_id : Option Nat) (msg_type : String)
    (d : InboundData) (eff : WsEffects) : List String × Bool :=
  if msg_type == "ping" then (["pong"], true)
  else if msg_type == "subscribe" then
    match d.groups with
    | some _ => (["subscribed"], true)
    | none => ([], true)
  else if msg_type == "unsubscribe" then
    match d.groups with
    | some _ => (["unsubscribed"], true)
    | none => ([], true)
  else if msg_type == "request_data" then
    match d.target with
    | some tgt =>
      if tgt == "sensor_data" then
        match user_id with
        | some uid =>
          if uid ≠ 0 then
            ((if eff.gen_ok then ["request_completed"] else ["system"]), true)
          else ([], true)
        | none => ([], true)
      else if tgt == "test_alert" then
        ((if eff.test_ok then ["request_completed"] else ["system"]), true)
      else if tgt == "get_thresholds" then
        ((if eff.get_thresholds_ok then ["thresholds_data", "request_completed"]
          else ["system"]), true)
      else if tgt == "save_thresholds" then
        ((if eff.save_ok then ["request_completed", "thresholds_data"]
          else ["system"]), true)
      else if tgt == "reset_thresholds" then
        ((if eff.reset_ok then ["request_completed", "thresholds_data"]
          else ["system"]), true)
      else if tgt == "get_alerts" then
        (match user_id with
         | some uid =>
           if uid ≠ 0 then
             (if eff.alerts_ok then
                List.replicate eff.alerts_count "sensor_alert" ++ ["request_completed"]
              else ["system"])
           else ["system"]
         | none => ["system"], true)
      else if tgt == "resolve_alert" then
        (match d.alert_id with
         | some i =>
           if i ≠ 0 then
             if eff.resolve_ok then
               (if eff.resolve_found then ["sensor_alert", "request_completed"]
                else ["system"])
             else ["system"]
           else ["system"]
         | none => ["system"], true)
      else ([], true)
    | none => ([], true)
  else if msg_type == "echo" then (["echo"], true)
  else ([], true)

/-- An inbound `data` object with no recognized fields. -/
def inbEmpty : InboundData := ⟨none, none, none, none⟩

/-- Effects oracle in which every database operation succeeds. -/
def effAllOk : WsEffects := ⟨true, true, true, true, true, true, 1, true, true⟩

/-- A small concrete registry: one connection, one group, one owner. -/
def c10Manager : ConnectionManager := ⟨[1], [("other", [1])], [(5, [1])]⟩

/-- A concrete message. -/
def msgX : WebSocketMessage := ⟨"sensor_data", "x"⟩

/-- A concrete registry with five connections in one group, all owned by
user 9. -/
def c6Manager : ConnectionManager :=
  ⟨[1, 2, 3, 4, 5], [("vineyard", [1, 2, 3, 4, 5])], [(9, [1, 2, 3, 4, 5])]⟩

/-- The registry after an attacker of owner 7 connects with the
client-chosen query group `user:42`. -/
def attackerManager : ConnectionManager :=
  websocket_connect ConnectionManager.empty 1 (some 7) ["user:42"]

/-- A reading of owner 42. -/
def msg42 : WebSocketMessage := ⟨"sensor_data", "owner42-reading"⟩

/-- The registry with a single legitimate connection of owner 42. -/
def ownerManager : ConnectionManager :=
  websocket_connect ConnectionManager.empty 5 (some 42) []

/-- The `[10, 20]` threshold used by the spec's testable properties. -/
def thTest : SensorAlertThreshold :=
  { id := 0, sensor_type := "temperature", min_value := 10, max_value := 20,
    unit := "°C", is_active := true, created_at := 0 }

/-- State after feeding value 25. -/
def stepHigh : AlertStore :=
  (check_sensor_value_against_threshold AlertStore.empty "s1" 25 thTest "°C").2

/-- State after feeding 25 then 5. -/
def stepHighLow : AlertStore :=
  (check_sensor_value_against_threshold stepHigh "s1" 5 thTest "°C").2

/-! ### Threshold store

The `sensor_alert_thresholds` table.  `SensorAlertThreshold.Meta` declares the
default ordering `["-created_at"]`, so an unordered `.filter(...).first()`
sees the newest row first; the model therefore keeps rows newest-first and
each insert prepends. -/

/-- The `sensor_alert_thresholds` table, rows newest-first. -/
structure ThresholdStore where
  rows : List SensorAlertThreshold
  nextId : Nat
  clock : Nat
deriving DecidableEq, Repr

/-- The empty `sensor_alert_thresholds` table. -/
def ThresholdStore.empty : ThresholdStore := ⟨[], 0, 0⟩

/-- The filter `sensor_type=ty, unit=u, is_active=True`. -/
def matchesActive (ty u : String) (t : SensorAlertThreshold) : Bool :=
  t.sensor_type == ty && t.unit == u && t.is_active

/-- `SensorAlertThreshold.filter(sensor_type=ty, unit=u, is_active=True).first()`:
the newest active threshold of the `(sensor_type, unit)` key, used both by
`create_sensor_threshold` (sensor.py lines 169-171) and by
`check_sensor_thresholds` (sensor.py lines 285-287). -/
def activeThresholdFor (db : ThresholdStore) (ty u : String) :
    Option SensorAlertThreshold :=
  db.rows.find? (matchesActive ty u)

/-- Number of active thresholds stored for one `(sensor_type, unit)` key. -/
def activeCount (db : ThresholdStore) (ty u : String) : Nat :=
  (db.rows.filter (matchesActive ty u)).length

/-- `existing.update_from_dict({"is_active": False}).save()`: sets
`is_active = False` on the row with the given id. -/
def deactivateById (i : Nat) (rows : List SensorAlertThreshold) :
    List SensorAlertThreshold :=
  rows.map (fun t => if t.id == i then { t with is_active := false } else t)

/-- `create_sensor_threshold` (sensor.py lines 155-189): if an active
threshold exists for the `(sensor_type, unit)` key it is deactivated first,
then a new threshold row is created (`is_active` defaults to `True`). -/
def create_sensor_threshold (db : ThresholdStore) (ty : String) (mn mx : ℚ)
    (u : String) : SensorAlertThreshold × ThresholdStore :=
  let db1 :=
    match activeThresholdFor db ty u with
    | none => db
    | some existing => { db with rows := deactivateById existing.id db.rows }
  let t : SensorAlertThreshold :=
    { id := db1.nextId, sensor_type := ty, min_value := mn, max_value := mx,
      unit := u, is_active := true, created_at := db1.clock }
  (t, { rows := t :: db1.rows, nextId := db1.nextId + 1, clock := db1.clock + 1 })

/-- The `save_thresholds` create branch of the WebSocket dispatcher
(routes.py lines 450-460): `SensorAlertThreshold.create(...)` with the
client-supplied `is_active` flag and NO deactivation of the prior active
threshold for the same `(sensor_type, unit)` key. -/
def ws_save_thresholds_create (db : ThresholdStore) (ty : String) (mn mx : ℚ)
    (u : String) (is_active : Bool) : ThresholdStore :=
  let t : SensorAlertThreshold :=
    { id := db.nextId, sensor_type := ty, min_value := mn, max_value := mx,
      unit := u, is_active := is_active, created_at := db.clock }
  { rows := t :: db.rows, nextId := db.nextId + 1, clock := db.clock + 1 }

/-- The uniqueness invariant claimed by the spec: at most one active
threshold per `(sensor_type, unit)` key. -/
def AtMostOneActive (db : ThresholdStore) : Prop :=
  ∀ ty u, activeCount db ty u ≤ 1

/-- Threshold store after creating `(temperature, °C, [10,20])` through the
service-layer `create_sensor_threshold`. -/
def thDb1 : ThresholdStore :=
  (create_sensor_threshold ThresholdStore.empty "temperature" 10 20 "°C").2

/-- Threshold store after additionally creating `(temperature, °C, [0,30])`
through the WebSocket `save_thresholds` path. -/
def thDb2 : ThresholdStore :=
  ws_save_thresholds_create thDb1 "temperature" 0 30 "°C" true

/-- State after feeding 25 then 15. -/
def stepHighNormal : Option SensorAlert × AlertStore :=
  check_sensor_value_against_threshold stepHigh "s1" 15 thTest "°C"

/-- A seeded state for the witness: user 1 owns sensor `"s"` with a stored
CO2 value of 400. -/
def genWitnessState : LastSensorValues := [(1, [("s", [("co2", 400)])])]

/-- The connection is in no index of the registry at all. -/
def OutOfAll (m : ConnectionManager) (c : Conn) : Prop :=
  c ∉ m.active_connections ∧
  (∀ p ∈ m.group_connections, c ∉ p.2) ∧
  (∀ p ∈ m.user_connections, c ∉ p.2)

/-- After `setA k v`, looking `k` up yields `v`. -/
lemma lookup_setA_self {α β : Type} [BEq α] [LawfulBEq α] (k : α) (v : β)
    (l : List (α × β)) : (setA k v l).lookup k = some v := by
  induction l with
  | nil => simp [setA, List.lookup]
  | cons p rest ih =>
    obtain ⟨k', v'⟩ := p
    by_cases h : k' = k
    · subst h
      simp [setA, List.lookup]
    · have hb : (k' == k) = false := by simpa using h
      have hb' : (k == k') = false := by simpa using fun e => h e.symm
      simp [setA, hb, List.lookup, hb', ih]

/-- C1, counterexample: with the active threshold `[10, 20]`, feeding the
value sequence `25, 5` does NOT close the prior high alert.  The branch for
`value < threshold.min_value` creates the new low alert without resolving
anything, so afterwards the sensor has TWO simultaneously active alerts and
the high alert still has `is_active = true` — refuting the claim that the
direction flip closes the high alert and never leaves two alerts active. -/
theorem directionFlipLeavesTwoActiveAlerts :
    (activeAlertsFor stepHighLow "s1").length = 2 ∧
    (∃ a ∈ stepHighLow.alerts,
       a.alert_type = AlertType.high ∧ a.is_active = true ∧ a.resolved_at = none) ∧
    (∃ a ∈ stepHighLow.alerts,
       a.alert_type = AlertType.low ∧ a.is_active = true) := by
  decide

/-- C1, amended: with the active threshold `[10, 20]`, feeding `25` then `5`
opens a high alert and then a new low alert, but the prior high alert is
left active (only the return-to-normal branch resolves alerts), so the
sensor ends up with exactly two active alerts: the low one (newest) and the
untouched high one. -/
theorem directionFlipOpensLowWithoutClosingHigh :
    ((check_sensor_value_against_threshold stepHigh "s1" 5 thTest "°C").1.map
        (fun a => (a.alert_type, a.is_active)) = some (AlertType.low, true)) ∧
    (activeAlertsFor stepHighLow "s1").map (fun a => a.alert_type)
      = [AlertType.low, AlertType.high] ∧
    (∀ a ∈ stepHighLow.alerts, a.alert_type = AlertType.high →
       a.is_active = true ∧ a.resolved_at = none) := by
  decide

/-- C3: with the active threshold `[10, 20]`, feeding `25, 26, 27` emits
exactly one high alert — for the first value `25` — and the second and
third in-direction breaches emit nothing while that alert is active. -/
theorem alertIdempotenceSameDirection :
    ((check_sensor_value_against_threshold AlertStore.empty "s1" 25 thTest "°C").1.map
        (fun a => (a.alert_type, a.is_active)) = some (AlertType.high, true)) ∧
    (check_sensor_value_against_threshold stepHigh "s1" 26 thTest "°C").1 = none ∧
    ((check_sensor_value_against_threshold
        (check_sensor_value_against_threshold stepHigh "s1" 26 thTest "°C").2
        "s1" 27 thTest "°C").1 = none) ∧
    ((check_sensor_value_against_threshold
        (check_sensor_value_against_threshold stepHigh "s1" 26 thTest "°C").2
        "s1" 27 thTest "°C").2.alerts.filter
          (fun a => a.alert_type == AlertType.high)).length = 1 := by
  decide

/-- C4: with the active threshold `[10, 20]`, feeding `25` then the
in-range value `15` resolves the previously opened high alert
(`is_active = false`, `resolved_at` set) and emits exactly one `normal`
alert, which is created already inactive. -/
theorem hysteresisClosureResolvesHighAndEmitsNormal :
    (stepHighNormal.1.map (fun a => (a.alert_type, a.is_active))
       = some (AlertType.normal, false)) ∧
    (∀ a ∈ stepHighNormal.2.alerts, a.alert_type = AlertType.high →
       a.is_active = false ∧ a.resolved_at ≠ none) ∧
    (stepHighNormal.2.alerts.filter
       (fun a => a.alert_type == AlertType.normal)).length = 1 ∧
    (activeAlertsFor stepHighNormal.2 "s1").length = 0 := by
  decide

/-! ### Threshold uniqueness (C8) -/

/-- A deactivated row never matches the active filter. -/
lemma matchesActive_deactivated (ty u : String) (t : SensorAlertThreshold) :
    matchesActive ty u { t with is_active := false } = false := by
  simp [matchesActive]

/-- Filtering after a pointwise map that only ever falsifies the predicate
cannot increase the filtered length. -/
lemma length_filter_map_le {α : Type} (p : α → Bool) (f : α → α)
    (hf : ∀ a, p (f a) = true → p a = true) (l : List α) :
    ((l.map f).filter p).length ≤ (l.filter p).length := by
  induction l with
  | nil => simp
  | cons a l ih =>
    simp only [List.map_cons, List.filter_cons]
    cases hfa : p (f a)
    · cases hpa : p a
      · simpa using ih
      · simp only [Bool.false_eq_true, eq_self_iff_true, if_false, if_true,
          List.length_cons]
        have hih := ih
        omega
    · rw [hf a hfa]
      simpa using ih

/-- The per-row operation of `deactivateById` only ever falsifies the
active-row filter. -/
lemma matchesActive_deactivateById_pointwise (ty u : String) (i : Nat)
    (t : SensorAlertThreshold) :
    matchesActive ty u (if t.id == i then { t with is_active := false } else t) = true →
    matchesActive ty u t = true := by
  by_cases hid : (t.id == i) = true
  · rw [if_pos hid, matchesActive_deactivated]
    intro h
    exact absurd h (by simp)
  · rw [if_neg hid]
    exact id

/-- Deactivating one id never increases the number of active rows of any key. -/
lemma activeFilter_deactivateById_le (ty u : String) (i : Nat)
    (rows : List SensorAlertThreshold) :
    ((deactivateById i rows).filter (matchesActive ty u)).length
      ≤ (rows.filter (matchesActive ty u)).length :=
  length_filter_map_le (matchesActive ty u)
    (fun t => if t.id == i then { t with is_active := false } else t)
    (matchesActive_deactivateById_pointwise ty u i) rows

/-- When the newest active row of a key is `e` and the key has at most one
active row, deactivating `e.id` leaves the key with no active row. -/
lemma activeFilter_deactivate_found (ty u : String)
    (rows : List SensorAlertThreshold) (e : SensorAlertThreshold)
    (hfind : rows.find? (matchesActive ty u) = some e)
    (hone : (rows.filter (matchesActive ty u)).length ≤ 1) :
    ((deactivateById e.id rows).filter (matchesActive ty u)).length = 0 := by
  induction rows with
  | nil => simp at hfind
  | cons t rest ih =>
    by_cases hm : matchesActive ty u t = true
    · rw [List.find?_cons_of_pos _ hm] at hfind
      have het : t = e := by simpa using hfind
      subst het
      rw [List.filter_cons, if_pos (by simpa using hm)] at hone
      simp only [List.length_cons] at hone
      have hrest0 : (rest.filter (matchesActive ty u)).length = 0 := by omega
      simp only [deactivateById, List.map_cons, beq_self_eq_true, if_true,
        List.filter_cons, matchesActive_deactivated]
      simp only [Bool.false_eq_true, if_false]
      have hle := activeFilter_deactivateById_le ty u t.id rest
      simp only [deactivateById] at hle
      omega
    · rw [List.find?_cons_of_neg _ (by simpa using hm)] at hfind
      rw [List.filter_cons, if_neg (by simpa using hm)] at hone
      have hrest := ih hfind hone
      simp only [deactivateById, List.map_cons, List.filter_cons]
      by_cases hid : (t.id == e.id) = true
      · rw [if_pos hid]
        rw [if_neg (by simp [matchesActive_deactivated])]
        simpa [deactivateById] using hrest
      · rw [if_neg hid]
        rw [if_neg (by simpa using hm)]
        simpa [deactivateById] using hrest

/-- C8, counterexample: creating a `(temperature, °C)` threshold through the
service layer and then a second one through the WebSocket `save_thresholds`
path leaves TWO active thresholds for the key, because the WebSocket create
branch (routes.py lines 450-460) does not deactivate the prior active one —
refuting "at most one threshold is active at any time". -/
theorem wsSaveLeavesTwoActiveThresholds :
    activeCount thDb2 "temperature" "°C" = 2 ∧
    ¬ AtMostOneActive thDb2 := by
  constructor
  · decide
  · intro h
    have := h "temperature" "°C"
    have h2 : activeCount thDb2 "temperature" "°C" = 2 := by decide
    omega

/-- C8, amended: the service-layer `create_sensor_threshold` preserves
"at most one active threshold per `(sensor_type, unit)`" — it first
deactivates the prior active threshold of the key — and afterwards the
active-threshold query for that key returns exactly the newly created
(newest) threshold.  The WebSocket `save_thresholds` create path does not
deactivate and can therefore leave two active thresholds for one key. -/
theorem createSensorThresholdReplacesActive (db : ThresholdStore)
    (ty : String) (mn mx : ℚ) (u : String) (h : AtMostOneActive db) :
    AtMostOneActive (create_sensor_threshold db ty mn mx u).2 ∧
    activeThresholdFor (create_sensor_threshold db ty mn mx u).2 ty u
      = some (create_sensor_threshold db ty mn mx u).1 := by
  have hnew : ∀ i c, matchesActive ty u
      { id := i, sensor_type := ty, min_value := mn, max_value := mx,
        unit := u, is_active := true, created_at := c } = true := by
    intro i c
    simp [matchesActive]
  constructor
  · intro ty' u'
    simp only [create_sensor_threshold, activeCount]
    cases hfind : activeThresholdFor db ty u with
    | none =>
      simp only [hfind, List.filter_cons]
      by_cases hk : matchesActive ty' u'
          { id := db.nextId, sensor_type := ty, min_value := mn,
            max_value := mx, unit := u, is_active := true,
            created_at := db.clock } = true
      · -- the new row matches, hence (ty', u') = (ty, u); the old key count is 0
        have hty : ty' = ty ∧ u' = u := by
          simp only [matchesActive, Bool.and_eq_true, beq_iff_eq] at hk
          exact ⟨hk.1.1.symm, hk.1.2.symm⟩
        obtain ⟨h1, h2⟩ := hty
        subst h1; subst h2
        have hzero : (db.rows.filter (matchesActive ty' u')).length = 0 := by
          unfold activeThresholdFor at hfind
          rw [List.filter_eq_nil_iff.mpr]
          · rfl
          · intro a ha hma
            have := List.find?_eq_none.mp hfind a ha
            exact this hma
        simp [hk, hzero]
      · simp only [Bool.not_eq_true] at hk
        simp only [hk, Bool.false_eq_true, if_false]
        have := h ty' u'
        simpa [activeCount] using this
    | some e =>
      simp only [hfind, List.filter_cons]
      by_cases hk : matchesActive ty' u'
          { id := db.nextId, sensor_type := ty, min_value := mn,
            max_value := mx, unit := u, is_active := true,
            created_at := db.clock } = true
      · have hty : ty' = ty ∧ u' = u := by
          simp only [matchesActive, Bool.and_eq_true, beq_iff_eq] at hk
          exact ⟨hk.1.1.symm, hk.1.2.symm⟩
        obtain ⟨h1, h2⟩ := hty
        subst h1; subst h2
        have hzero := activeFilter_deactivate_found ty' u' db.rows e hfind
          (by simpa [activeCount] using h ty' u')
        simp [hk, hzero]
      · simp only [Bool.not_eq_true] at hk
        simp only [hk, Bool.false_eq_true, if_false]
        have hle := activeFilter_deactivateById_le ty' u' e.id db.rows
        have := h ty' u'
        simp only [activeCount] at this
        omega
  · simp only [create_sensor_threshold, activeThresholdFor]
    cases hfind : activeThresholdFor db ty u <;>
      simp [hfind, List.find?_cons, hnew]

/-- Witness for `createSensorThresholdReplacesActive`: applied to the empty
store, whose invariant holds trivially. -/
theorem createSensorThresholdReplacesActive_witness :
    AtMostOneActive
      (create_sensor_threshold ThresholdStore.empty "temperature" 10 20 "°C").2 ∧
    activeThresholdFor
      (create_sensor_threshold ThresholdStore.empty "temperature" 10 20 "°C").2
      "temperature" "°C"
      = some (create_sensor_threshold ThresholdStore.empty "temperature" 10 20 "°C").1 :=
  createSensorThresholdReplacesActive ThresholdStore.empty "temperature" 10 20 "°C"
    (fun _ _ => Nat.zero_le 1)

/-! ### Bounded walk (C5) -/

/-- Every `SENSOR_RANGES` entry has `min ≤ max`. -/
lemma sensorRanges_min_le_max (ty : SensorType) :
    (SENSOR_RANGES ty).min ≤ (SENSOR_RANGES ty).max := by
  cases ty <;> norm_num [SENSOR_RANGES]

/-- C5: whenever `generate_sensor_value` returns a value — for any stored
state, any key, any drawn random step and any diurnal-pattern contribution —
that value is clamped into the `[min, max]` range configured for the sensor
type, and the stored last value for that `(user, sensor, type)` key equals
the returned value. -/
theorem generateSensorValueBounded (st : LastSensorValues) (user_id : Nat)
    (sensor_id : String) (sensor_type : SensorType) (rand pattern : ℚ)
    (v : ℚ) (st' : LastSensorValues)
    (h : generate_sensor_value st user_id sensor_id sensor_type rand pattern
           = some (v, st')) :
    (SENSOR_RANGES sensor_type).min ≤ v ∧ v ≤ (SENSOR_RANGES sensor_type).max ∧
    (st'.lookup user_id).bind (fun us =>
      (us.lookup sensor_id).bind (fun tv => tv.lookup sensor_type.value)) = some v := by
  unfold generate_sensor_value at h
  cases hu : st.lookup user_id with
  | none =>
    rw [hu] at h
    simp at h
  | some us =>
    rw [hu] at h
    simp only [Option.some_bind] at h
    cases hs : us.lookup sensor_id with
    | none =>
      rw [hs] at h
      simp at h
    | some tv =>
      rw [hs] at h
      simp only [Option.some_bind, Option.some.injEq, Prod.mk.injEq] at h
      obtain ⟨hv, hst⟩ := h
      subst hst
      refine ⟨?_, ?_, ?_⟩
      · rw [← hv]
        exact le_max_left _ _
      · rw [← hv]
        exact max_le (sensorRanges_min_le_max sensor_type) (min_le_left _ _)
      · rw [lookup_setA_self, Option.some_bind, lookup_setA_self,
          Option.some_bind, lookup_setA_self, hv]

/-- Witness for `generateSensorValueBounded`: a concrete successful
generation step (a zero random step keeps the value at 400, inside
`[300, 1500]`). -/
theorem generateSensorValueBounded_witness :
    (SENSOR_RANGES SensorType.co2).min ≤ (400 : ℚ) ∧
    (400 : ℚ) ≤ (SENSOR_RANGES SensorType.co2).max ∧
    (genWitnessState.lookup 1).bind (fun us =>
      (us.lookup "s").bind (fun tv => tv.lookup SensorType.co2.value))
      = some (400 : ℚ) :=
  generateSensorValueBounded genWitnessState 1 "s" SensorType.co2 0 0
    400 genWitnessState (by
      norm_num [generate_sensor_value, genWitnessState, SensorType.value,
        hasHourPattern, SENSOR_RANGES, setA, List.lookup])

/-! ### Frame effect of broadcasting to an unknown group (C10) -/

/-- `setA` on an absent key appends the new pair at the end. -/
lemma setA_of_lookup_none {α β : Type} [BEq α] [LawfulBEq α] (k : α) (v : β)
    (l : List (α × β)) (h : l.lookup k = none) : setA k v l = l ++ [(k, v)] := by
  induction l with
  | nil => rfl
  | cons p rest ih =>
    obtain ⟨k', v'⟩ := p
    by_cases heq : k' = k
    · subst heq
      simp [List.lookup] at h
    · have hb : (k' == k) = false := by simpa using heq
      have hb' : (k == k') = false := by simpa using fun e => heq e.symm
      simp only [List.lookup, hb'] at h
      simp [setA, hb, ih h]

/-- C10: broadcasting to a group name with no registry entry is not
read-only — it appends a fresh empty entry for that group to the group
index and sends nothing, while the active-connection set, the user index
and all existing group entries are untouched. -/
theorem broadcastToUnknownGroupCreatesEmptyEntry (m : ConnectionManager)
    (fails : Conn → Bool) (msg : WebSocketMessage) (g : String)
    (h : m.group_connections.lookup g = none) :
    (broadcast_to_group m fails msg g).1 = [] ∧
    (broadcast_to_group m fails msg g).2.group_connections
      = m.group_connections ++ [(g, [])] ∧
    (broadcast_to_group m fails msg g).2.group_connections.lookup g = some [] ∧
    (broadcast_to_group m fails msg g).2.active_connections
      = m.active_connections ∧
    (broadcast_to_group m fails msg g).2.user_connections
      = m.user_connections := by
  unfold broadcast_to_group
  rw [h]
  exact ⟨rfl, setA_of_lookup_none g [] _ h, lookup_setA_self g [] _, rfl, rfl⟩

/-- Witness for `broadcastToUnknownGroupCreatesEmptyEntry` at a concrete
registry and the unknown group `"ghost"`. -/
theorem broadcastToUnknownGroupCreatesEmptyEntry_witness :
    (broadcast_to_group c10Manager (fun _ => false) msgX "ghost").1 = [] ∧
    (broadcast_to_group c10Manager (fun _ => false) msgX "ghost").2.group_connections
      = c10Manager.group_connections ++ [("ghost", [])] ∧
    (broadcast_to_group c10Manager (fun _ => false) msgX "ghost").2.group_connections.lookup "ghost"
      = some [] ∧
    (broadcast_to_group c10Manager (fun _ => false) msgX "ghost").2.active_connections
      = c10Manager.active_connections ∧
    (broadcast_to_group c10Manager (fun _ => false) msgX "ghost").2.user_connections
      = c10Manager.user_connections :=
  broadcastToUnknownGroupCreatesEmptyEntry c10Manager (fun _ => false) msgX "ghost"
    (by decide)

/-! ### Partial-failure fan-out (C6) -/

/-- `contains = false` means non-membership. -/
lemma not_mem_of_contains_eq_false {a : Conn} {l : List Conn}
    (h : l.contains a = false) : a ∉ l := by
  intro hm
  have h2 : l.contains a = true := List.elem_iff.mpr hm
  rw [h2] at h
  simp at h

/-- Every entry surviving `removeConnEntries` comes from an original entry
with the same key, its list either erased of the connection (when it was a
member) or untouched (when it was not). -/
lemma mem_removeConnEntries {α : Type} (w : Conn) (l : List (α × List Conn))
    (p : α × List Conn) (hp : p ∈ removeConnEntries w l) :
    ∃ q ∈ l, p.1 = q.1 ∧
      ((q.2.contains w = true ∧ p.2 = q.2.erase w) ∨
       (q.2.contains w = false ∧ p.2 = q.2)) := by
  unfold removeConnEntries at hp
  rw [List.mem_filterMap] at hp
  obtain ⟨q, hq, hfq⟩ := hp
  by_cases hc : q.2.contains w = true
  · rw [if_pos hc] at hfq
    by_cases he : (q.2.erase w).isEmpty = true
    · rw [if_pos he] at hfq
      simp at hfq
    · rw [if_neg he] at hfq
      injection hfq with hfq
      subst hfq
      exact ⟨q, hq, rfl, Or.inl ⟨hc, rfl⟩⟩
  · rw [if_neg hc] at hfq
    injection hfq with hfq
    subst hfq
    exact ⟨q, hq, rfl, Or.inr ⟨by simpa using hc, rfl⟩⟩

/-- After `removeConnEntries w`, no surviving entry contains `w` — given
that no entry held it twice. -/
lemma removeConnEntries_not_mem_self {α : Type} (w : Conn)
    (l : List (α × List Conn)) (hnod : ∀ q ∈ l, q.2.Nodup) :
    ∀ p ∈ removeConnEntries w l, w ∉ p.2 := by
  intro p hp
  obtain ⟨q, hq, _, hcase | hcase⟩ := mem_removeConnEntries w l p hp
  · rw [hcase.2]
    intro hw
    exact (((hnod q hq).mem_erase_iff).mp hw).1 rfl
  · rw [hcase.2]
    exact not_mem_of_contains_eq_false hcase.1

/-- A connection absent from every entry stays absent after
`removeConnEntries`. -/
lemma removeConnEntries_out_mono {α : Type} (w x : Conn)
    (l : List (α × List Conn)) (hx : ∀ q ∈ l, x ∉ q.2) :
    ∀ p ∈ removeConnEntries w l, x ∉ p.2 := by
  intro p hp
  obtain ⟨q, hq, _, hcase | hcase⟩ := mem_removeConnEntries w l p hp
  · rw [hcase.2]
    exact fun hw => hx q hq (List.mem_of_mem_erase hw)
  · rw [hcase.2]
    exact hx q hq

/-- `removeConnEntries` preserves per-entry `Nodup`. -/
lemma removeConnEntries_nodup {α : Type} (w : Conn)
    (l : List (α × List Conn)) (hnod : ∀ q ∈ l, q.2.Nodup) :
    ∀ p ∈ removeConnEntries w l, p.2.Nodup := by
  intro p hp
  obtain ⟨q, hq, _, hcase | hcase⟩ := mem_removeConnEntries w l p hp
  · rw [hcase.2]
    exact (hnod q hq).erase w
  · rw [hcase.2]
    exact hnod q hq

/-- `disconnect` removes the connection from `active_connections`. -/
lemma disconnect_active_not_mem_self (m : ConnectionManager) (w : Conn)
    (hnod : m.active_connections.Nodup) :
    w ∉ (disconnect m w).active_connections := by
  show w ∉ (if m.active_connections.contains w = true
      then m.active_connections.erase w else m.active_connections)
  by_cases hc : m.active_connections.contains w = true
  · rw [if_pos hc]
    intro hw
    exact ((hnod.mem_erase_iff).mp hw).1 rfl
  · rw [if_neg hc]
    exact not_mem_of_contains_eq_false (by simpa using hc)

/-- A connection out of `active_connections` stays out after any
`disconnect`. -/
lemma disconnect_active_out_mono (m : ConnectionManager) (w x : Conn)
    (hx : x ∉ m.active_connections) :
    x ∉ (disconnect m w).active_connections := by
  show x ∉ (if m.active_connections.contains w = true
      then m.active_connections.erase w else m.active_connections)
  by_cases hc : m.active_connections.contains w = true
  · rw [if_pos hc]
    exact fun hw => hx (List.mem_of_mem_erase hw)
  · rw [if_neg hc]
    exact hx

/-- `disconnect` preserves registry well-formedness. -/
lemma wf_disconnect (m : ConnectionManager) (w : Conn) (hwf : Wf m) :
    Wf (disconnect m w) := by
  obtain ⟨h1, h2, h3⟩ := hwf
  refine ⟨?_, ?_, ?_⟩
  · show (if m.active_connections.contains w = true
        then m.active_connections.erase w else m.active_connections).Nodup
    by_cases hc : m.active_connections.contains w = true
    · rw [if_pos hc]
      exact h1.erase w
    · rw [if_neg hc]
      exact h1
  · exact removeConnEntries_nodup w _ h2
  · exact removeConnEntries_nodup w _ h3

/-- Being out of every index is preserved by any further `disconnect`. -/
lemma outOfAll_disconnect (m : ConnectionManager) (w c : Conn)
    (h : OutOfAll m c) : OutOfAll (disconnect m w) c :=
  ⟨disconnect_active_out_mono m w c h.1,
   removeConnEntries_out_mono w c _ h.2.1,
   removeConnEntries_out_mono w c _ h.2.2⟩

/-- Disconnecting a connection purges it from every index. -/
lemma outOfAll_disconnect_self (m : ConnectionManager) (c : Conn)
    (hwf : Wf m) : OutOfAll (disconnect m c) c :=
  ⟨disconnect_active_not_mem_self m c hwf.1,
   removeConnEntries_not_mem_self c _ hwf.2.1,
   removeConnEntries_not_mem_self c _ hwf.2.2⟩

/-- `OutOfAll` is preserved by folding `disconnect` over any list. -/
lemma outOfAll_foldl_disconnect (ds : List Conn) :
    ∀ (m : ConnectionManager) (c : Conn), OutOfAll m c →
      OutOfAll (ds.foldl disconnect m) c := by
  induction ds with
  | nil => exact fun m c h => h
  | cons d rest ih => exact fun m c h => ih _ c (outOfAll_disconnect m d c h)

/-- `Wf` is preserved by folding `disconnect` over any list. -/
lemma wf_foldl_disconnect (ds : List Conn) :
    ∀ m, Wf m → Wf (ds.foldl disconnect m) := by
  induction ds with
  | nil => exact fun m h => h
  | cons d rest ih => exact fun m h => ih _ (wf_disconnect m d h)

/-- Folding `disconnect` over a list purges every member of the list. -/
lemma foldl_disconnect_removes (ds : List Conn) :
    ∀ (m : ConnectionManager), Wf m → ∀ c ∈ ds,
      OutOfAll (ds.foldl disconnect m) c := by
  induction ds with
  | nil =>
    intro m _ c hc
    cases hc
  | cons d rest ih =>
    intro m hwf c hc
    rcases List.mem_cons.mp hc with rfl | hc2
    · exact outOfAll_foldl_disconnect rest _ c (outOfAll_disconnect_self m c hwf)
    · exact ih _ (wf_disconnect m d hwf) c hc2

/-- Unfolding `broadcast_to_group` when the group exists. -/
lemma broadcast_to_group_eq_of_lookup_some (m : ConnectionManager)
    (fails : Conn → Bool) (msg : WebSocketMessage) (g : String)
    (conns : List Conn) (hg : m.group_connections.lookup g = some conns) :
    broadcast_to_group m fails msg g =
      if conns.isEmpty = true then ([], m)
      else ((conns.filter (fun c => !(fails c))).map (fun c => (c, serialize msg)),
            (conns.filter (fun c => fails c)).foldl disconnect m) := by
  unfold broadcast_to_group
  rw [hg]

/-- C6: broadcasting to a group in a well-formed registry delivers the
once-serialized message to every member whose send does not fail — a
failure never aborts the remaining fan-out — and every member whose send
fails ends up removed from every index of the registry: the broadcast
group and all other groups, its owner's connection list, and the catch-all
`active_connections` set. -/
theorem broadcastToGroupPartialFailure (m : ConnectionManager)
    (fails : Conn → Bool) (msg : WebSocketMessage) (g : String)
    (conns : List Conn) (hwf : Wf m)
    (hg : m.group_connections.lookup g = some conns) :
    (∀ c ∈ conns, fails c = false →
       (c, serialize msg) ∈ (broadcast_to_group m fails msg g).1) ∧
    (∀ c ∈ conns, fails c = true →
       OutOfAll (broadcast_to_group m fails msg g).2 c) := by
  rw [broadcast_to_group_eq_of_lookup_some m fails msg g conns hg]
  by_cases hemp : conns.isEmpty = true
  · have hnil : conns = [] := List.isEmpty_iff.mp hemp
    subst hnil
    exact ⟨fun c hc => absurd hc (List.not_mem_nil c),
           fun c hc => absurd hc (List.not_mem_nil c)⟩
  · rw [if_neg hemp]
    constructor
    · intro c hc hf
      exact List.mem_map.mpr
        ⟨c, List.mem_filter.mpr ⟨hc, by simp [hf]⟩, rfl⟩
    · intro c hc hf
      exact foldl_disconnect_removes _ m hwf c
        (List.mem_filter.mpr ⟨hc, hf⟩)

/-- Witness for `broadcastToGroupPartialFailure`: a group of five
connections of which number 3 fails. -/
theorem broadcastToGroupPartialFailure_witness :
    (∀ c ∈ [1, 2, 3, 4, 5], (fun x => x == 3) c = false →
       (c, serialize msgX) ∈
         (broadcast_to_group c6Manager (fun x => x == 3) msgX "vineyard").1) ∧
    (∀ c ∈ [1, 2, 3, 4, 5], (fun x => x == 3) c = true →
       OutOfAll (broadcast_to_group c6Manager (fun x => x == 3) msgX "vineyard").2 c) :=
  broadcastToGroupPartialFailure c6Manager (fun x => x == 3) msgX "vineyard"
    [1, 2, 3, 4, 5] (by unfold Wf; decide) (by decide)

/-! ### Owner-scoped broadcast isolation (C2) -/

/-- A successful association-list lookup exhibits a matching entry. -/
lemma lookup_mem {α β : Type} [BEq α] [LawfulBEq α] (k : α) (v : β)
    (l : List (α × β)) (h : l.lookup k = some v) : (k, v) ∈ l := by
  induction l with
  | nil => cases h
  | cons p rest ih =>
    obtain ⟨k', v'⟩ := p
    by_cases heq : k = k'
    · subst heq
      simp only [List.lookup, beq_self_eq_true, Option.some.injEq] at h
      subst h
      exact List.mem_cons_self _ _
    · have hb : (k == k') = false := by simpa using heq
      simp only [List.lookup, hb] at h
      exact List.mem_cons_of_mem _ (ih h)

/-- Group-broadcast deliveries only reach members of the group's entry. -/
lemma mem_broadcast_to_group_deliveries (m : ConnectionManager)
    (fails : Conn → Bool) (msg : WebSocketMessage) (g : String)
    (c : Conn) (s : String)
    (h : (c, s) ∈ (broadcast_to_group m fails msg g).1) :
    ∃ conns, m.group_connections.lookup g = some conns ∧ c ∈ conns := by
  cases hg : m.group_connections.lookup g with
  | none =>
    unfold broadcast_to_group at h
    rw [hg] at h
    cases h
  | some conns =>
    rw [broadcast_to_group_eq_of_lookup_some m fails msg g conns hg] at h
    by_cases hemp : conns.isEmpty = true
    · rw [if_pos hemp] at h
      cases h
    · rw [if_neg hemp] at h
      obtain ⟨x, hx, hxy⟩ := List.mem_map.mp h
      injection hxy with h1 _
      subst h1
      exact ⟨conns, rfl, (List.mem_filter.mp hx).1⟩

/-- Every user-index entry of the state after a group broadcast descends
from an entry of the original state with the same key and a sub-list of
connections. -/
lemma foldl_disconnect_user_entry_sub (ds : List Conn) :
    ∀ (m : ConnectionManager) (p : Nat × List Conn),
      p ∈ (ds.foldl disconnect m).user_connections →
      ∃ q ∈ m.user_connections, p.1 = q.1 ∧ ∀ x ∈ p.2, x ∈ q.2 := by
  induction ds with
  | nil => exact fun m p hp => ⟨p, hp, rfl, fun x hx => hx⟩
  | cons d rest ih =>
    intro m p hp
    obtain ⟨q, hq, h1, hsub⟩ := ih (disconnect m d) p hp
    obtain ⟨q0, hq0, h01, hcase | hcase⟩ :=
      mem_removeConnEntries d m.user_connections q hq
    · exact ⟨q0, hq0, h1.trans h01,
        fun x hx => List.mem_of_mem_erase (hcase.2 ▸ hsub x hx)⟩
    · exact ⟨q0, hq0, h1.trans h01, fun x hx => hcase.2 ▸ hsub x hx⟩

/-- Same as `foldl_disconnect_user_entry_sub`, through `broadcast_to_group`. -/
lemma broadcast_to_group_user_entry_sub (m : ConnectionManager)
    (fails : Conn → Bool) (msg : WebSocketMessage) (g : String)
    (p : Nat × List Conn)
    (hp : p ∈ (broadcast_to_group m fails msg g).2.user_connections) :
    ∃ q ∈ m.user_connections, p.1 = q.1 ∧ ∀ x ∈ p.2, x ∈ q.2 := by
  cases hg : m.group_connections.lookup g with
  | none =>
    unfold broadcast_to_group at hp
    rw [hg] at hp
    exact ⟨p, hp, rfl, fun x hx => hx⟩
  | some conns =>
    rw [broadcast_to_group_eq_of_lookup_some m fails msg g conns hg] at hp
    by_cases hemp : conns.isEmpty = true
    · rw [if_pos hemp] at hp
      exact ⟨p, hp, rfl, fun x hx => hx⟩
    · rw [if_neg hemp] at hp
      exact foldl_disconnect_user_entry_sub _ m p hp

/-- The direct-send loop delivers only to connections of the iterated
list. -/
lemma mem_sendEachStep_foldl (fails : Conn → Bool) (msg : WebSocketMessage)
    (cs : List Conn) :
    ∀ (acc : List (Conn × String) × ConnectionManager) (c : Conn) (s : String),
      (c, s) ∈ (cs.foldl (sendEachStep fails msg) acc).1 →
      (c, s) ∈ acc.1 ∨ c ∈ cs := by
  induction cs with
  | nil => exact fun acc c s h => Or.inl h
  | cons d rest ih =>
    intro acc c s h
    rcases ih _ c s h with h1 | h1
    · rcases List.mem_append.mp h1 with h2 | h2
      · exact Or.inl h2
      · right
        unfold send_personal_message at h2
        by_cases hf : fails d = true
        · rw [if_pos hf] at h2
          cases h2
        · rw [if_neg hf] at h2
          have h3 := List.mem_singleton.mp h2
          injection h3 with h4 _
          subst h4
          exact List.mem_cons_self _ _
    · exact Or.inr (List.mem_cons_of_mem _ h1)

/-- C2, amended: a reading broadcast through the owner-scoped path for
owner `A` is delivered only to connections belonging to the registry entry
of the group `user:A` or to `A`'s own connection list at broadcast time.
Consequently a connection that is in neither — in particular one of another
owner `B` that never joined the group `user:A` — receives nothing.  (The
unamended claim fails because group membership is client-chosen: the
connect query groups and the `subscribe` command join arbitrary group
names, including another owner's `user:{id}` group, with no check.) -/
theorem ownerScopedDeliveryIsolation (m : ConnectionManager)
    (fails : Conn → Bool) (msg : WebSocketMessage) (owner : Nat)
    (c : Conn) (s : String)
    (h : (c, s) ∈ (broadcast_sensor_data_owner m fails msg owner).1) :
    (∃ p ∈ m.group_connections, p.1 = "user:" ++ toString owner ∧ c ∈ p.2) ∨
    (∃ p ∈ m.user_connections, p.1 = owner ∧ c ∈ p.2) := by
  unfold broadcast_sensor_data_owner at h
  rcases List.mem_append.mp h with h1 | h1
  · obtain ⟨conns, hlk, hc⟩ :=
      mem_broadcast_to_group_deliveries m fails msg _ c s h1
    exact Or.inl ⟨("user:" ++ toString owner, conns), lookup_mem _ _ _ hlk, rfl, hc⟩
  · rcases mem_sendEachStep_foldl fails msg _ _ c s h1 with h2 | h2
    · cases h2
    · right
      cases hlk : (broadcast_to_group m fails msg
          ("user:" ++ toString owner)).2.user_connections.lookup owner with
      | none =>
        rw [hlk] at h2
        cases h2
      | some conns1 =>
        rw [hlk] at h2
        obtain ⟨q, hq, h01, hsub⟩ := broadcast_to_group_user_entry_sub m fails msg
          ("user:" ++ toString owner) (owner, conns1) (lookup_mem _ _ _ hlk)
        exact ⟨q, hq, h01.symm, hsub c h2⟩

/-- C2, counterexample: connection 1 is registered to owner 7, yet owner
42's reading, delivered through the owner-scoped path, reaches it — because
the client chose the group `user:42` at connect time (routes.py passes
query groups to `manager.connect` unchecked) and nothing validates group
membership.  This refutes the claim that no interleaving of
connect/subscribe/broadcast delivers an owner's reading to another owner's
connection. -/
theorem crossTenantLeakViaClientChosenGroup :
    (∃ p ∈ attackerManager.user_connections, p.1 = 7 ∧ 1 ∈ p.2) ∧
    (1, serialize msg42) ∈
      (broadcast_sensor_data_owner attackerManager (fun _ => false) msg42 42).1 := by
  decide

/-- Witness for `ownerScopedDeliveryIsolation`: owner 42's own connection 5
legitimately receives the reading, and the theorem locates it in the
`user:42` group entry or owner 42's connection list. -/
theorem ownerScopedDeliveryIsolation_witness :
    (∃ p ∈ ownerManager.group_connections,
       p.1 = "user:" ++ toString 42 ∧ 5 ∈ p.2) ∨
    (∃ p ∈ ownerManager.user_connections, p.1 = 42 ∧ 5 ∈ p.2) :=
  ownerScopedDeliveryIsolation ownerManager (fun _ => false) msg42 42 5
    (serialize msg42) (by decide)

/-! ### Unknown inbound commands (C7) -/

/-- C7, counterexample: an inbound envelope of unrecognized type
`"status_update"`, and a `request_data` envelope with unrecognized target
`"bogus_target"`, each produce zero replies (the connection stays open) —
refuting the claim that every such command is answered with at least one
echo or `system` error envelope. -/
theorem unknownInboundCommandGetsNoReply :
    handle_ws_message (some 1) "status_update" inbEmpty effAllOk = ([], true) ∧
    handle_ws_message (some 1) "request_data"
      { inbEmpty with target := some "bogus_target" } effAllOk = ([], true) := by
  decide

/-- C7, amended: an inbound envelope whose type is none of
ping/subscribe/unsubscribe/request_data/echo is silently dropped — no reply
of any kind is attempted (only the literal type `"echo"` is echoed back) —
and likewise a `request_data` envelope whose target is unrecognized; in
both cases the read loop continues, so the connection stays open. -/
theorem unknownCommandsSilentlyIgnoredButConnectionStaysOpen
    (user_id : Option Nat) (d : InboundData) (eff : WsEffects) (ty tgt : String)
    (hty : ty ∉ (["ping", "subscribe", "unsubscribe", "request_data", "echo"] :
      List String))
    (htgt : tgt ∉ (["sensor_data", "test_alert", "get_thresholds",
      "save_thresholds", "reset_thresholds", "get_alerts", "resolve_alert"] :
      List String)) :
    handle_ws_message user_id ty d eff = ([], true) ∧
    handle_ws_message user_id "request_data" { d with target := some tgt } eff
      = ([], true) := by
  simp only [List.mem_cons, List.mem_singleton, not_or] at hty htgt
  obtain ⟨h1, h2, h3, h4, h5⟩ := hty
  obtain ⟨g1, g2, g3, g4, g5, g6, g7⟩ := htgt
  constructor
  · simp [handle_ws_message, beq_iff_eq, h1, h2, h3, h4, h5]
  · simp [handle_ws_message, beq_iff_eq, g1, g2, g3, g4, g5, g6, g7]

/-- Witness for `unknownCommandsSilentlyIgnoredButConnectionStaysOpen` at
the unrecognized type `"frobnicate"` and target `"calibrate"`. -/
theorem unknownCommandsSilentlyIgnored_witness :
    handle_ws_message (some 1) "frobnicate" inbEmpty effAllOk = ([], true) ∧
    handle_ws_message (some 1) "request_data"
      { inbEmpty with target := some "calibrate" } effAllOk = ([], true) :=
  unknownCommandsSilentlyIgnoredButConnectionStaysOpen (some 1) inbEmpty effAllOk
    "frobnicate" "calibrate" (by decide) (by decide)

/-- C9: the recreation path never terminates.  When a count mismatch is
detected, line 128 sets `last_sensor_values[user_id] = {}` and recurses;
the user's key is still present, so the recursive call re-enters the
"user has an entry" branch, rebuilds an empty sensor dict, sees `0 !=
total_sensors` and resets again — for every amount of fuel (recursion
depth) the result is divergence (`none`; in Python, a `RecursionError`),
never a map of `total_sensors` streams.  Shown here for owner 7 with
configured `sensor_count = 1`, starting from the post-reset state the code
itself produces on any mismatch. -/
theorem getOrCreateUserSensorsRecreationDiverges :
    ∀ (fuel : Nat) (rand : SensorType → Nat → ℚ),
      get_or_create_user_sensors fuel [(7, [])] 7 1 2 rand = none := by
  intro fuel
  induction fuel with
  | zero => intro rand; rfl
  | succ n ih =>
    intro rand
    have hstep : get_or_create_user_sensors (n + 1) [(7, [])] 7 1 2 rand
        = get_or_create_user_sensors n [(7, [])] 7 1 2 rand := rfl
    rw [hstep]
    exact ih rand

end Vineyard
